import Mathlib

/-!
Shallow embedding of the detection-orchestration front end of the
Weapon-Detection_System repository.

The webcam component (`WebcamDetection.jsx`) keeps its state in React
`useState` hooks; we model that state as the record `WebcamState` and each
handler (`stopWebcam`, the `sendFrame` loop body, the fetch completion
handlers, the WebSocket message handler) as a function on an explicit
`World` record that additionally tracks the current time, the single
pending `setTimeout(sendFrame, 100)` timer, the outstanding detection
fetches, and the histories of submitted frames, applied results and logged
errors.

Closure semantics are modelled faithfully: inside `sendFrame`, the name
`isStreaming` is the binding of the render that created the closure, not
the component's current state.  `sendFrame` therefore takes that captured
value as an explicit parameter, and the timer it arms carries the same
value (the `setTimeout` re-invokes the very same closure).  `startWebcam`
creates and invokes the loop via `startDetection` *before* it issues
`setIsStreaming(true)`, so the captured value is the component's streaming
flag as it stood when the handler ran — `false` for every reachable start,
because the component renders the Start button only while it is not
streaming.  Consequently every invocation of `sendFrame` returns at the
`if (!isStreaming) return` guard: the frame loop never submits a frame and
never arms its 100 ms timer (the invariant `LoopDead` below).

The upload tab (`App.jsx`) is modelled separately: the record `AppState`
with the operations `fetchStats` and `detectWeapons`.
-/

namespace WeaponDetection

/-- One weapon detection as delivered by the backend: class name,
confidence (scaled to an integer), and bounding box. -/
structure Detection where
  cls : String
  confidence : Nat
  bbox : Nat × Nat × Nat × Nat
deriving DecidableEq

/-- The `useState` hooks of the `WebcamDetection` component together with
the observable state of its `video` element and of the detection-overlay
`canvas`.  The overlay canvas is modelled by the list of detections
currently drawn on it (`[]` is a cleared canvas); the media stream and the
video source are opaque handles. -/
structure WebcamState where
  isStreaming : Bool
  detections : List Detection
  isLoading : Bool
  errorMsg : Option String
  stream : Option Nat
  videoSrc : Option Nat
  videoPlaying : Bool
  canvas : List Detection
deriving DecidableEq

/-- The `drawDetections` helper of the component: clear the overlay canvas,
then draw one labelled box per detection, so the canvas contents afterwards
are exactly the batch that was passed in. -/
def drawDetections (s : WebcamState) (ds : List Detection) : WebcamState :=
  { s with canvas := ds }

/-- The `stopWebcam` handler: stop and drop the media stream if one is
present, pause the video element and detach its source, clear the streaming
flag and the detections list, and clear the overlay canvas.  It does not
touch any pending `setTimeout` timer of the frame loop and does not abort
outstanding detection fetches. -/
def stopWebcam (s : WebcamState) : WebcamState :=
  let s1 := match s.stream with
    | some _ => { s with stream := none }
    | none => s
  { s1 with videoPlaying := false, videoSrc := none,
            isStreaming := false, detections := [], canvas := [] }

/-- An outstanding `POST /detect/video` request: the time at which the
frame was submitted and the `Date.now()` timestamp sent in its body. -/
structure FrameReq where
  submitTime : Nat
  frameTs : Nat
deriving DecidableEq

/-- The component state plus the runtime entities the frame loop interacts
with: the current time, the (at most one) pending `setTimeout(sendFrame,
100)` timer — its fire time paired with the `isStreaming` value captured by
the `sendFrame` closure it will re-invoke — the outstanding detection
fetches, and histories of all frames submitted, all results applied to the
component, and all errors logged by the `.catch` handler. -/
structure World where
  comp : WebcamState
  now : Nat
  pendingTimer : Option (Nat × Bool)
  inFlight : List FrameReq
  submitted : List FrameReq
  applied : List (FrameReq × List Detection)
  failLog : List String
deriving DecidableEq

/-- The body of `sendFrame`.  Both of its `isStreaming` reads (the entry
guard and the rescheduling guard) read the binding captured from the render
that created the closure, passed here as `captured`; the timer armed by
`setTimeout(sendFrame, 100)` re-invokes the same closure, so it carries the
same captured value.  When the captured flag is false the body returns at
the `if (!isStreaming) return` guard without doing anything; when it is
true the body captures the current video frame onto the scratch canvas,
POSTs it together with the current timestamp (the request becomes
outstanding), and schedules the next invocation 100 ms later. -/
def sendFrame (captured : Bool) (w : World) : World :=
  if captured then
    let r : FrameReq := ⟨w.now, w.now⟩
    { w with inFlight := w.inFlight ++ [r],
             submitted := w.submitted ++ [r],
             pendingTimer := some (w.now + 100, captured) }
  else w

/-- Firing of the pending timer: the timer is consumed and the `sendFrame`
closure it refers to runs at the timer's fire time, reading its captured
streaming flag. -/
def fireTimer (w : World) : World :=
  match w.pendingTimer with
  | none => w
  | some tc => sendFrame tc.2 { w with now := max w.now tc.1, pendingTimer := none }

/-- The fulfilled-response handler of the detection fetch (the `.then`
chain): if the parsed body has a `detections` field (in JavaScript an empty
array also passes the `if (data.detections)` test), store the batch with
`setDetections` and redraw the overlay with `drawDetections`; otherwise do
nothing.  The handler can only run for a request that is actually
outstanding. -/
def completeOk (w : World) (r : FrameReq) (t : Nat)
    (dets : Option (List Detection)) : World :=
  if r ∈ w.inFlight then
    let w1 := { w with inFlight := w.inFlight.erase r, now := max w.now t }
    match dets with
    | some ds =>
        { w1 with comp := drawDetections { w1.comp with detections := ds } ds,
                  applied := w1.applied ++ [(r, ds)] }
    | none => w1
  else w

/-- The rejected-response handler of the detection fetch (the `.catch`
handler): the error is logged to the console and nothing else happens.  It
too can only run for a request that is actually outstanding. -/
def completeFail (w : World) (r : FrameReq) (t : Nat) (msg : String) : World :=
  if r ∈ w.inFlight then
    { w with inFlight := w.inFlight.erase r, now := max w.now t,
             failLog := w.failLog ++ [msg] }
  else w

/-- The successful path of `startWebcam`: raise the loading flag and clear
any previous error, acquire the camera stream and attach it to the video
element, call `startDetection` — which defines the `sendFrame` closure over
the current render's `isStreaming` binding and invokes it once — and only
afterwards issue `setIsStreaming(true)`; the `finally` clause drops the
loading flag.  The captured flag handed to the loop is therefore the
component's streaming flag as it stood at entry, before it is set to
true. -/
def startWebcamOk (w : World) (streamId : Nat) : World :=
  let captured := w.comp.isStreaming
  let c1 := { w.comp with
      isLoading := true, errorMsg := none, stream := some streamId,
      videoSrc := some streamId, videoPlaying := true }
  let w1 := sendFrame captured { w with comp := c1 }
  { w1 with comp := { w1.comp with isStreaming := true, isLoading := false } }

/-- The failing path of `startWebcam` (`getUserMedia` rejected): an error
message is set and the loading flag dropped; nothing is started. -/
def startWebcamFail (w : World) : World :=
  let c0 := { w.comp with isLoading := true, errorMsg := none }
  { w with comp := { c0 with
      errorMsg := some "Failed to access webcam. Please ensure camera permissions are granted.",
      isLoading := false } }

/-- The WebSocket `onmessage` handler for a message of type `detection`:
store the batch and redraw the overlay. -/
def wsDetectionMsg (w : World) (ds : List Detection) : World :=
  { w with comp := drawDetections { w.comp with detections := ds } ds }

/-- The WebSocket `onerror` handler: set an error message. -/
def wsError (w : World) : World :=
  { w with comp := { w.comp with errorMsg := some "Failed to connect to detection server" } }

/-- The events that can occur while the component is mounted. -/
inductive Ev where
  | fire
  | ok (r : FrameReq) (t : Nat) (dets : Option (List Detection))
  | fail (r : FrameReq) (t : Nat) (msg : String)
  | stop
  | startOk (streamId : Nat)
  | startFail
  | ws (ds : List Detection)
  | wsErr
deriving DecidableEq

/-- Dispatch one event to the corresponding handler.  A successful start
can only occur while the component is not streaming, because the component
renders the Start button only then (otherwise it renders the Stop button);
a start attempt while streaming is modelled as a no-op. -/
def stepEv (w : World) (e : Ev) : World :=
  match e with
  | .fire => fireTimer w
  | .ok r t dets => completeOk w r t dets
  | .fail r t msg => completeFail w r t msg
  | .stop => { w with comp := stopWebcam w.comp }
  | .startOk sid => if w.comp.isStreaming then w else startWebcamOk w sid
  | .startFail => startWebcamFail w
  | .ws ds => wsDetectionMsg w ds
  | .wsErr => wsError w

/-- Run a sequence of events. -/
def runEvents (w : World) (es : List Ev) : World :=
  es.foldl stepEv w

/-- The freshly mounted component: all hooks at their `useState` initial
values, no timer, no outstanding request. -/
def initWorld : World :=
  { comp := { isStreaming := false, detections := [], isLoading := false,
              errorMsg := none, stream := none, videoSrc := none,
              videoPlaying := false, canvas := [] },
    now := 0, pendingTimer := none, inFlight := [],
    submitted := [], applied := [], failLog := [] }

/-- A world that can actually arise while the component is mounted. -/
def Reachable (w : World) : Prop :=
  ∃ es : List Ev, runEvents initWorld es = w

/-- The statistics record returned by `GET /stats` and displayed by the
upload tab. -/
structure Stats where
  total_detections : Nat
  knife_detections : Nat
  pistol_detections : Nat
  alerts_sent : Nat
deriving DecidableEq

/-- The `useState` hooks of the `App` component. -/
structure AppState where
  activeTab : String
  image : Option String
  processedImage : Option String
  detections : List Detection
  loading : Bool
  stats : Option Stats
  alertTriggered : Bool
deriving DecidableEq

/-- Outcome of one `GET /stats` poll. -/
inductive StatsResp where
  | ok (data : Stats)
  | notOk
  | netError (msg : String)
deriving DecidableEq

/-- Whether a poll outcome is a failure: a non-ok HTTP status, or a network
or parse error caught by the surrounding `try`. -/
def StatsResp.failed : StatsResp → Bool
  | .ok _ => false
  | .notOk => true
  | .netError _ => true

/-- The `fetchStats` poll of `App.jsx`: on an ok response the parsed body
replaces the `stats` state; a non-ok response is ignored, and a thrown
error is only logged to the console, so in both failure cases the component
state is left untouched. -/
def fetchStats (s : AppState) (r : StatsResp) : AppState :=
  match r with
  | .ok d => { s with stats := some d }
  | .notOk => s
  | .netError _ => s

/-- The synchronous prefix of `detectWeapons` in `App.jsx`: with no image
selected it returns immediately (no request is issued, no state is
changed); with an image it raises the loading flag and issues the
`POST /detect-image` request carrying the image. -/
def detectWeapons (s : AppState) : AppState × Option String :=
  match s.image with
  | none => (s, none)
  | some img => ({ s with loading := true }, some img)

/-- Outcome of a `POST /detect-image` request. -/
inductive DetectResp where
  | ok (processed : Option String) (dets : Option (List Detection)) (alert : Option Bool)
  | notOk
  | netError (msg : String)
deriving DecidableEq

/-- The continuation of `detectWeapons` once the response arrives: an ok
response stores the processed image, the detections (`data.detections ||
[]`) and the alert flag (`data.alert_triggered || false`); failures are
only logged; the `finally` clause always drops the loading flag. -/
def detectWeaponsDone (s : AppState) (r : DetectResp) : AppState :=
  let s1 := match r with
    | .ok p d a => { s with processedImage := p, detections := d.getD [],
                            alertTriggered := a.getD false }
    | .notOk => s
    | .netError _ => s
  { s1 with loading := false }

/-- The freshly mounted `App` component. -/
def initApp : AppState :=
  { activeTab := "upload", image := none, processedImage := none,
    detections := [], loading := false, stats := none,
    alertTriggered := false }

/-! ### Basic lemmas about the step functions -/

theorem sendFrame_comp (captured : Bool) (w : World) :
    (sendFrame captured w).comp = w.comp := by
  unfold sendFrame
  split <;> rfl

theorem fireTimer_comp (w : World) : (fireTimer w).comp = w.comp := by
  unfold fireTimer
  split
  · rfl
  · rw [sendFrame_comp]

theorem startWebcamOk_comp (w : World) (sid : Nat) :
    (startWebcamOk w sid).comp =
      { w.comp with isLoading := false, errorMsg := none, stream := some sid,
                    videoSrc := some sid, videoPlaying := true,
                    isStreaming := true } := by
  simp only [startWebcamOk, sendFrame_comp]

/-- When the captured streaming flag is false — as it is for every reachable
invocation — a start leaves the frame loop's runtime state (submissions,
outstanding calls, timer, applied results, error log) untouched: the single
`sendFrame` call returns at its guard. -/
theorem startWebcamOk_loop_fields (w : World) (sid : Nat)
    (hs : w.comp.isStreaming = false) :
    (startWebcamOk w sid).submitted = w.submitted ∧
    (startWebcamOk w sid).inFlight = w.inFlight ∧
    (startWebcamOk w sid).pendingTimer = w.pendingTimer ∧
    (startWebcamOk w sid).applied = w.applied ∧
    (startWebcamOk w sid).failLog = w.failLog := by
  simp [startWebcamOk, sendFrame, hs]

/-! ### Reachability invariants of the webcam component

First, the component-state invariant: every handler that draws a batch on
the overlay also stores the same batch in the detections state, so an empty
detections list always goes with a cleared overlay; and the stream handle
is acquired and released in lockstep with the streaming flag and the video
element. -/

def Inv (w : World) : Prop :=
  (w.comp.detections = [] → w.comp.canvas = []) ∧
  (w.comp.stream = none →
    w.comp.isStreaming = false ∧ w.comp.videoSrc = none ∧
    w.comp.videoPlaying = false)

theorem inv_step (w : World) (e : Ev) (h : Inv w) : Inv (stepEv w e) := by
  obtain ⟨h1, h2⟩ := h
  cases e with
  | fire =>
      show Inv (fireTimer w)
      unfold Inv
      rw [fireTimer_comp]
      exact ⟨h1, h2⟩
  | ok r t dets =>
      show Inv (completeOk w r t dets)
      unfold completeOk
      split
      · cases dets with
        | none => exact ⟨h1, h2⟩
        | some ds =>
            refine ⟨fun hd => ?_, fun hs => h2 hs⟩
            simpa [drawDetections] using hd
      · exact ⟨h1, h2⟩
  | fail r t m =>
      show Inv (completeFail w r t m)
      unfold completeFail
      split <;> exact ⟨h1, h2⟩
  | stop =>
      show Inv { w with comp := stopWebcam w.comp }
      unfold stopWebcam
      cases w.comp.stream <;> exact ⟨fun _ => rfl, fun _ => ⟨rfl, rfl, rfl⟩⟩
  | startOk sid =>
      show Inv (if w.comp.isStreaming = true then w else startWebcamOk w sid)
      cases hb : w.comp.isStreaming with
      | true =>
          rw [if_pos rfl]
          exact ⟨h1, h2⟩
      | false =>
          rw [if_neg Bool.false_ne_true]
          unfold Inv
          rw [startWebcamOk_comp]
          exact ⟨fun hd => h1 hd, by intro hs; simp at hs⟩
  | startFail =>
      exact ⟨fun hd => h1 hd, fun hs => h2 hs⟩
  | ws ds =>
      refine ⟨fun hd => ?_, fun hs => h2 hs⟩
      simpa [stepEv, wsDetectionMsg, drawDetections] using hd
  | wsErr =>
      exact ⟨fun hd => h1 hd, fun hs => h2 hs⟩

theorem inv_run (es : List Ev) : ∀ w : World, Inv w → Inv (runEvents w es) := by
  induction es with
  | nil => exact fun w h => h
  | cons e es ih => exact fun w h => ih (stepEv w e) (inv_step w e h)

theorem inv_init : Inv initWorld :=
  ⟨fun _ => rfl, fun _ => ⟨rfl, rfl, rfl⟩⟩

theorem inv_reachable (w : World) (h : Reachable w) : Inv w := by
  obtain ⟨es, rfl⟩ := h
  exact inv_run es initWorld inv_init

theorem stopWebcam_eq_self (s : WebcamState) (h1 : s.stream = none)
    (h2 : s.detections = []) (h3 : s.isStreaming = false)
    (h4 : s.videoSrc = none) (h5 : s.videoPlaying = false)
    (h6 : s.canvas = []) : stopWebcam s = s := by
  cases s
  simp_all [stopWebcam]

/-! ### The dead-loop invariant

Because `sendFrame` reads the closure-captured `isStreaming` — which is
false for every invocation the program can make, the capture happening in
`startWebcam` before `setIsStreaming(true)` and only from a render that
shows the Start button — the frame loop is dead in every run: no frame is
ever submitted, no detector call is ever outstanding, no timer is ever
pending, no batch is ever applied by the loop's response handler, and no
detector error is ever logged. -/

def LoopDead (w : World) : Prop :=
  w.submitted = [] ∧ w.inFlight = [] ∧ w.pendingTimer = none ∧
  w.applied = [] ∧ w.failLog = []

theorem loopDead_step (w : World) (e : Ev) (h : LoopDead w) :
    LoopDead (stepEv w e) := by
  obtain ⟨h1, h2, h3, h4, h5⟩ := h
  cases e with
  | fire =>
      show LoopDead (fireTimer w)
      unfold fireTimer
      rw [h3]
      exact ⟨h1, h2, h3, h4, h5⟩
  | ok r t dets =>
      show LoopDead (completeOk w r t dets)
      have hnot : r ∉ w.inFlight := by rw [h2]; exact List.not_mem_nil r
      unfold completeOk
      rw [if_neg hnot]
      exact ⟨h1, h2, h3, h4, h5⟩
  | fail r t m =>
      show LoopDead (completeFail w r t m)
      have hnot : r ∉ w.inFlight := by rw [h2]; exact List.not_mem_nil r
      unfold completeFail
      rw [if_neg hnot]
      exact ⟨h1, h2, h3, h4, h5⟩
  | stop => exact ⟨h1, h2, h3, h4, h5⟩
  | startOk sid =>
      show LoopDead (if w.comp.isStreaming = true then w else startWebcamOk w sid)
      cases hb : w.comp.isStreaming with
      | true =>
          rw [if_pos rfl]
          exact ⟨h1, h2, h3, h4, h5⟩
      | false =>
          rw [if_neg Bool.false_ne_true]
          obtain ⟨g1, g2, g3, g4, g5⟩ := startWebcamOk_loop_fields w sid hb
          exact ⟨g1.trans h1, g2.trans h2, g3.trans h3, g4.trans h4, g5.trans h5⟩
  | startFail => exact ⟨h1, h2, h3, h4, h5⟩
  | ws ds => exact ⟨h1, h2, h3, h4, h5⟩
  | wsErr => exact ⟨h1, h2, h3, h4, h5⟩

theorem loopDead_run (es : List Ev) : ∀ w : World,
    LoopDead w → LoopDead (runEvents w es) := by
  induction es with
  | nil => exact fun w h => h
  | cons e es ih => exact fun w h => ih (stepEv w e) (loopDead_step w e h)

theorem loopDead_init : LoopDead initWorld :=
  ⟨rfl, rfl, rfl, rfl, rfl⟩

theorem loopDead_reachable (w : World) (h : Reachable w) : LoopDead w := by
  obtain ⟨es, rfl⟩ := h
  exact loopDead_run es initWorld loopDead_init

/-! ### Claim C1 -/

/-- C1 (confirmed): for the webcam source, no two detector calls overlap in
time — in every reachable world at most one detection call is outstanding.
The property holds vacuously, for the strongest possible reason: every
invocation of `sendFrame` reads the closure-captured `isStreaming`, which
is false, so the frame-submission loop never submits any frame and the set
of outstanding detector calls is always empty. -/
theorem c1_no_overlap (w : World) (hr : Reachable w) :
    w.inFlight.length ≤ 1 := by
  rw [(loopDead_reachable w hr).2.1]
  exact Nat.zero_le 1

/-- Witness for `c1_no_overlap` at the world reached by starting the
webcam. -/
theorem c1_witness : (runEvents initWorld [Ev.startOk 7]).inFlight.length ≤ 1 :=
  c1_no_overlap (runEvents initWorld [Ev.startOk 7]) ⟨[Ev.startOk 7], rfl⟩

/-! ### Claim C2 -/

/-- C2 (code bug): the claim describes the intended failure escalation —
five consecutive detector failures transition the source to Failed and halt
scheduling — but the code cannot exhibit it.  Started at time 0 and left
running through the would-be first five 100 ms ticks, the component is
streaming yet has submitted no frame, made no detector call and logged no
failure: the loop's fetch and its `.catch` handler are dead code behind the
stale-closure guard, and the component has no failure counter and no Failed
state at all, contradicting the documented real-time detection behavior. -/
theorem c2_loop_never_calls_detector :
    (runEvents initWorld
        [Ev.startOk 7, Ev.fire, Ev.fire, Ev.fire, Ev.fire, Ev.fire]).comp.isStreaming
      = true ∧
    (runEvents initWorld
        [Ev.startOk 7, Ev.fire, Ev.fire, Ev.fire, Ev.fire, Ev.fire]).submitted
      = [] ∧
    (runEvents initWorld
        [Ev.startOk 7, Ev.fire, Ev.fire, Ev.fire, Ev.fire, Ev.fire]).failLog
      = [] := by decide

/-! ### Claim C3 -/

/-- A sample knife detection. -/
def dKnife : Detection := ⟨"knife", 95, (10, 20, 30, 40)⟩

/-- C3 (confirmed): after the source is stopped, a detector call that
completes late is discarded — the completion changes nothing, so its result
never updates the detections state and never triggers a redraw of the
overlay.  In the program this holds vacuously: the loop never issues a
detection request (stale-closure guard), so there is never an outstanding
call whose late result could be applied, and a completion event for any
request leaves the stopped world unchanged because the request is not among
the (empty) outstanding set. -/
theorem c3_late_result_discarded (w : World) (hr : Reachable w) (r : FrameReq)
    (t : Nat) (ds : Option (List Detection)) :
    stepEv (stepEv w Ev.stop) (Ev.ok r t ds) = stepEv w Ev.stop := by
  have hnot : r ∉ (stepEv w Ev.stop).inFlight := by
    rw [show (stepEv w Ev.stop).inFlight = w.inFlight from rfl,
        (loopDead_reachable w hr).2.1]
    exact List.not_mem_nil r
  show completeOk (stepEv w Ev.stop) r t ds = stepEv w Ev.stop
  unfold completeOk
  rw [if_neg hnot]

/-- Witness for `c3_late_result_discarded`: a completion event arriving
after the started webcam is stopped is a no-op. -/
theorem c3_witness :
    stepEv (stepEv (runEvents initWorld [Ev.startOk 7]) Ev.stop)
        (Ev.ok ⟨0, 0⟩ 150 (some [dKnife])) =
      stepEv (runEvents initWorld [Ev.startOk 7]) Ev.stop :=
  c3_late_result_discarded (runEvents initWorld [Ev.startOk 7])
    ⟨[Ev.startOk 7], rfl⟩ ⟨0, 0⟩ 150 (some [dKnife])

/-! ### Claim C4 -/

/-- C4 (confirmed): stopping a running source leaves no scheduler timer and
no orphaned background work — after stop returns, no pending timer exists
and no sequence of further events ever produces a frame submission or a
pending timer.  This holds trivially of the program: the recursive timer
chain never starts (every `sendFrame` invocation returns at the
stale-closure guard), so there is never a timer to release and no
background work to survive the stop call. -/
theorem c4_stop_no_orphans (w : World) (hr : Reachable w) (es : List Ev) :
    (stepEv w Ev.stop).pendingTimer = none ∧
    (runEvents (stepEv w Ev.stop) es).submitted = [] ∧
    (runEvents (stepEv w Ev.stop) es).pendingTimer = none := by
  have hstop : LoopDead (stepEv w Ev.stop) :=
    loopDead_step w Ev.stop (loopDead_reachable w hr)
  have hrun := loopDead_run es (stepEv w Ev.stop) hstop
  exact ⟨hstop.2.2.1, hrun.1, hrun.2.2.1⟩

/-- Witness for `c4_stop_no_orphans`: start the webcam, stop it, then let
further (vacuous) timer and completion events occur. -/
theorem c4_witness :
    (stepEv (runEvents initWorld [Ev.startOk 7]) Ev.stop).pendingTimer = none ∧
    (runEvents (stepEv (runEvents initWorld [Ev.startOk 7]) Ev.stop)
        [Ev.fire, Ev.ok ⟨0, 0⟩ 150 (some [dKnife])]).submitted = [] ∧
    (runEvents (stepEv (runEvents initWorld [Ev.startOk 7]) Ev.stop)
        [Ev.fire, Ev.ok ⟨0, 0⟩ 150 (some [dKnife])]).pendingTimer = none :=
  c4_stop_no_orphans (runEvents initWorld [Ev.startOk 7])
    ⟨[Ev.startOk 7], rfl⟩ [Ev.fire, Ev.ok ⟨0, 0⟩ 150 (some [dKnife])]

/-! ### Claim C5 -/

/-- C5 (confirmed): calling stop on an already-stopped source is a no-op.
In every reachable world in which the source is not streaming (the stream
handle is null and the detections list is empty), running `stopWebcam`
again leaves the whole component state — in particular the stream handle,
the streaming flag, the detections list and the overlay canvas — unchanged;
the handler is total, so no error is raised.  Reachability supplies the
facts that such a component is indeed not flagged as streaming, has a
detached paused video element, and has a cleared overlay. -/
theorem c5_stop_idempotent (w : World) (hr : Reachable w)
    (h1 : w.comp.stream = none) (h2 : w.comp.detections = []) :
    stopWebcam w.comp = w.comp := by
  obtain ⟨hcanvas, hstream⟩ := inv_reachable w hr
  obtain ⟨hs, hv, hp⟩ := hstream h1
  exact stopWebcam_eq_self w.comp h1 h2 hs hv hp (hcanvas h2)

/-- Witness for `c5_stop_idempotent` at the freshly mounted component. -/
theorem c5_witness : stopWebcam initWorld.comp = initWorld.comp :=
  c5_stop_idempotent initWorld ⟨[], rfl⟩ rfl rfl

/-! ### Claim C6 -/

/-- C6 (code bug): the claim says every per-frame detector error is
recovered locally — logged, not propagated, the next tick still scheduled.
In the code no per-frame detector error can ever occur: the loop never
issues a detection request (its fetch is dead code behind the stale-closure
guard), so there is nothing to fail and nothing to recover from.  After a
start and an attempted failure completion, the outstanding set and the
error log are empty and no tick is pending — the recovery path of the claim
is never exercised because the loop it protects never runs. -/
theorem c6_no_detector_error_possible :
    (runEvents initWorld
        [Ev.startOk 7, Ev.fail ⟨0, 0⟩ 50 "Detection error", Ev.fire]).inFlight
      = [] ∧
    (runEvents initWorld
        [Ev.startOk 7, Ev.fail ⟨0, 0⟩ 50 "Detection error", Ev.fire]).failLog
      = [] ∧
    (runEvents initWorld
        [Ev.startOk 7, Ev.fail ⟨0, 0⟩ 50 "Detection error", Ev.fire]).pendingTimer
      = none := by decide

/-! ### Claim C7 -/

/-- C7 (confirmed): `fetchStats` leaves the component state — in particular
the displayed `stats` record — unchanged whenever the poll fails, whether
because the response has a non-ok status or because the request threw and
was caught (which is merely logged).  A caller polling statistics during
failure therefore keeps seeing exactly the last successfully fetched
values, never corrupted or negative counters. -/
theorem c7_stats_frozen_on_failure (s : AppState) (r : StatsResp)
    (h : r.failed = true) : fetchStats s r = s := by
  cases r with
  | ok d => simp [StatsResp.failed] at h
  | notOk => rfl
  | netError m => rfl

/-- Witness for `c7_stats_frozen_on_failure` at the freshly mounted `App`
component and a non-ok response. -/
theorem c7_witness : fetchStats initApp StatsResp.notOk = initApp :=
  c7_stats_frozen_on_failure initApp StatsResp.notOk rfl

/-! ### Claim C8 -/

/-- C8 (code bug): the claim says each iteration of the frame-submission
loop while the source is streaming submits at most one frame and schedules
exactly one successor 100 ms later.  The code's only iteration is the
initial call made during `startWebcam`, before `setIsStreaming(true)`, and
it reads the closure-captured flag `false`: immediately after a start the
source is streaming, yet no frame has been submitted and no successor tick
has been scheduled — the loop never iterates again, let alone at 100 ms,
contradicting the documented 10 FPS real-time behavior. -/
theorem c8_no_tick_while_streaming :
    (runEvents initWorld [Ev.startOk 7]).comp.isStreaming = true ∧
    (runEvents initWorld [Ev.startOk 7]).submitted = [] ∧
    (runEvents initWorld [Ev.startOk 7]).pendingTimer = none := by decide

/-! ### Claim C9 -/

/-- C9 (confirmed): within the single webcam source, detection results are
applied to the component in frame-submission order — the history of applied
batches is always sorted by the submission time of the frame each answers.
The property holds vacuously: the loop never submits a frame (stale-closure
guard), so no batch is ever applied and the history is always empty. -/
theorem c9_applied_in_submission_order (w : World) (hr : Reachable w) :
    w.applied.Pairwise (fun a b => a.1.submitTime ≤ b.1.submitTime) := by
  rw [(loopDead_reachable w hr).2.2.2.1]
  exact List.Pairwise.nil

/-- Witness for `c9_applied_in_submission_order` at the world reached by
starting the webcam. -/
theorem c9_witness :
    (runEvents initWorld [Ev.startOk 7]).applied.Pairwise
      (fun a b => a.1.submitTime ≤ b.1.submitTime) :=
  c9_applied_in_submission_order (runEvents initWorld [Ev.startOk 7])
    ⟨[Ev.startOk 7], rfl⟩

/-! ### Claim C10 -/

/-- C10 (confirmed): when no image has been selected, `detectWeapons`
returns at its first line — it issues no request to the detection backend
(the request component is `none`) and leaves the whole component state
(loading flag, processed image, detections, alert flag, statistics)
unchanged. -/
theorem c10_no_image_noop (s : AppState) (h : s.image = none) :
    detectWeapons s = (s, none) := by
  simp [detectWeapons, h]

/-- Witness for `c10_no_image_noop` at the freshly mounted `App`
component. -/
theorem c10_witness : detectWeapons initApp = (initApp, none) :=
  c10_no_image_noop initApp rfl

end WeaponDetection
